import Mathlib

/-!
Verification of the PSD8 syringe-pump protocol engine (files `PSD8.py`,
Python 2, and `PSD8v2.py`, its Python 3 port).  Byte strings are modelled
as `List Nat` (each element a byte value); the serial transport is
modelled as the list of byte chunks that successive `read` calls return.
-/

namespace PSD8

/-- Source `PSD8.py`, `_checksum`: `reduce(lambda x,y: x^ord(y), str(s), 0)` —
an XOR fold of the byte values with no explicit mask (Python 2 `str`
iteration yields one character per byte). -/
def checksum_v1 (s : List Nat) : Nat :=
  s.foldl (fun x y => x ^^^ y) 0

/-- Source `PSD8v2.py`, `_checksum`: a loop doing `res ^= b; res &= 0xFF` over the
bytes, starting from 0.  (The Python returns the result as a 1-byte
`bytes`; we keep the numeric value, which is what is compared.) -/
def checksum_v2 (s : List Nat) : Nat :=
  s.foldl (fun res b => (res ^^^ b) &&& 0xFF) 0

/-- Modelled from the spec: "XOR-fold of every input byte, masked to
8 bits" — the specification's formula for the checksum, used to compare
the two source implementations against it. -/
def xorFoldMasked (s : List Nat) : Nat :=
  (s.foldl (fun x y => x ^^^ y) 0) &&& 0xFF

/-- Result dictionary of `_check_packet`:
`ready = bool(0b00100000 & statusbyte)`, `errorStatus = 0x0F & statusbyte`. -/
structure Status where
  ready : Bool
  errorStatus : Nat
deriving DecidableEq

/-- The three distinct `ValueError` raise sites of `_check_packet`, in
source order: "must be a complete response packet", "failed checksum",
"status byte invalid". -/
inductive CheckErr
  | incomplete
  | checksumFailed
  | statusInvalid
deriving DecidableEq

/-- Source `PSD8.py`, `_check_packet` (Python 2 string semantics).  Guards in
source order with Python's short-circuit `or`: the `packet[-2]` access in
the first guard is only reached when `startswith` holds, hence the list
then has length ≥ 2 and the `getD` default is never used. -/
def check_packet_v1 (packet : List Nat) : Except CheckErr Status :=
  if packet.take 2 ≠ [0x02, 0x30] then .error .incomplete
  else if packet.getD (packet.length - 2) 0 ≠ 0x03 then .error .incomplete
  else
    let statusbyte := packet.getD 2 0
    if checksum_v1 packet.dropLast ≠ packet.getLastD 0 then .error .checksumFailed
    else if statusbyte &&& 0b11010000 ≠ 0b01000000 then .error .statusInvalid
    else .ok ⟨decide (0b00100000 &&& statusbyte ≠ 0), 0x0F &&& statusbyte⟩

/-- Source `PSD8v2.py`, `_check_packet` — identical source logic, but the
checksum comparison uses the v2 checksum
(`self._checksum(packet[:-1]) != packet[-1].to_bytes(1,"big")`, equality
of 1-byte values). -/
def check_packet_v2 (packet : List Nat) : Except CheckErr Status :=
  if packet.take 2 ≠ [0x02, 0x30] then .error .incomplete
  else if packet.getD (packet.length - 2) 0 ≠ 0x03 then .error .incomplete
  else
    let statusbyte := packet.getD 2 0
    if checksum_v2 packet.dropLast ≠ packet.getLastD 0 then .error .checksumFailed
    else if statusbyte &&& 0b11010000 ≠ 0b01000000 then .error .statusInvalid
    else .ok ⟨decide (0b00100000 &&& statusbyte ≠ 0), 0x0F &&& statusbyte⟩

/-- Python `str(n).encode()` for a non-negative integer: the ASCII codes
of the decimal digits of `n`. -/
def pyDigits (n : Nat) : List Nat :=
  (Nat.toDigits 10 n).map Char.toNat

/-- The frame body built in `PSD8.py` `_send` before the checksum is
appended: `b"\x02" + chr(ord("0")+address) + chr((sequence+ord("0")) |
(0b00001000*rep)) + cmd + b"\x03"`. -/
def packet_core_v1 (cmd : List Nat) (address seq rep : Nat) : List Nat :=
  0x02 :: (0x30 + address) :: ((seq + 0x30) ||| (0b00001000 * rep)) :: (cmd ++ [0x03])

/-- Full `PSD8.py` outbound frame: the body followed by its checksum byte
(`packet += chr(checksum).encode()`; faithful for checksum values below
128, where Python 2's implicit ASCII codec is the identity — all frames
appearing in the claims have such checksums). -/
def build_packet_v1 (cmd : List Nat) (address seq rep : Nat) : List Nat :=
  packet_core_v1 cmd address seq rep ++ [checksum_v1 (packet_core_v1 cmd address seq rep)]

/-- The frame body built in `PSD8v2.py` `_send`:
`b"\x02" + str(address).encode() + str(self.sequence).encode() +
cmd.encode() + b"\x03"`.  Note: no repeat bit is ever applied (the line
computing it is commented out in the source). -/
def packet_core_v2 (cmd : List Nat) (address seq : Nat) : List Nat :=
  0x02 :: (pyDigits address ++ (pyDigits seq ++ (cmd ++ [0x03])))

/-- Full `PSD8v2.py` outbound frame: body plus checksum byte
(`packet += self._checksum(packet)`). -/
def build_packet_v2 (cmd : List Nat) (address seq : Nat) : List Nat :=
  packet_core_v2 cmd address seq ++ [checksum_v2 (packet_core_v2 cmd address seq)]

/-- Exceptions that can leave `_send` (or `_ready_wait`):
* `indexError` — Python `IndexError` from evaluating `in_packet[-2]` in the
  read-loop condition while `in_packet` holds exactly one byte (the access
  sits outside the `try` block, so it is not caught);
* `retryLimit` — `PSD8.py`'s `Exception("Retry limit reached: failed to
  send command: " + packet)`, carrying the attempted outbound frame
  (Python 2 `str + str` concatenation succeeds);
* `typeErrorStrBytesConcat` — in `PSD8v2.py` the same `raise` line
  concatenates a `str` literal with the `bytes` frame, which in Python 3
  raises `TypeError` while building the message, so no frame is carried;
* `valueError` — a `ValueError` from `_check_packet` escaping
  `_ready_wait`'s outer, un-guarded `_check_packet` call. -/
inductive PyErr
  | indexError
  | retryLimit (lastFrame : List Nat)
  | typeErrorStrBytesConcat
  | valueError (e : CheckErr)
deriving DecidableEq

/-- Strip leading `0xFF` bytes: `in_packet.lstrip(b"\xff")`. -/
def lstripFF : List Nat → List Nat
  | 255 :: rest => lstripFF rest
  | l => l

/-- The inner read loop of `_send`:
`while (len(in_packet)==0 or in_packet[-2] != ETX) and read_count > 0:
  sleep(...); read_count -= 1; in_packet += read(100)`.
The condition is evaluated in Python's short-circuit order, so with a
1-byte buffer the `in_packet[-2]` access raises `IndexError` before
`read_count` is consulted.  Each `read` pops the next chunk the transport
delivers (an exhausted transport yields the empty chunk, as a timed-out
serial read does).  Returns the accumulated buffer and the rest of the
chunk stream. -/
def read_loop : Nat → List Nat → List (List Nat) →
    Except PyErr (List Nat × List (List Nat))
  | rc, inp, chunks =>
    if inp = [] then
      match rc with
      | 0 => .ok (inp, chunks)
      | rc' + 1 => read_loop rc' (inp ++ chunks.headD []) chunks.tail
    else if inp.length = 1 then .error .indexError
    else if inp.getD (inp.length - 2) 0 = 0x03 then .ok (inp, chunks)
    else
      match rc with
      | 0 => .ok (inp, chunks)
      | rc' + 1 => read_loop rc' (inp ++ chunks.headD []) chunks.tail

/-- The sequence-number update on the success path of `_send`:
`self.sequence = (self.sequence+1, 1)[self.sequence>=7]`. -/
def advance (s : Nat) : Nat :=
  if s ≥ 7 then 1 else s + 1

/-- Everything observable about one `_send` call: the outbound frames
written to the transport (one per attempt, in order), the returned
inbound packet or the escaping exception, and the value of
`self.sequence` afterwards. -/
structure SendOutcome where
  frames : List (List Nat)
  result : Except PyErr (List Nat)
  seqAfter : Nat

/-- The retry loop of `_send` (`while retry_count > 0`), parameterised by
the version's `_check_packet` and by the error produced when the budget
is exhausted (`retryLimit packet` in `PSD8.py`, the `TypeError` in
`PSD8v2.py`).  The outbound `packet` was built once before the loop and
is written unchanged on every attempt; the local `repeat` flag the source
sets in the `except` branch is never read again, so it does not appear.
On a validated response the sequence advances and the (`0xFF`-stripped)
packet is returned; on a `ValueError` from `_check_packet` the bare
`except:` swallows it and the loop retries; an `IndexError` from the read
loop is outside the `try` and escapes. -/
def attempt_loop (checkP : List Nat → Except CheckErr Status)
    (packet : List Nat) (exhaustErr : PyErr) (seq : Nat) :
    Nat → List (List Nat) → List (List Nat) → SendOutcome
  | 0, _chunks, frames => ⟨frames.reverse, .error exhaustErr, seq⟩
  | rc + 1, chunks, frames =>
    match read_loop 10 [] chunks with
    | .error e => ⟨(packet :: frames).reverse, .error e, seq⟩
    | .ok (inp, chunks') =>
      match checkP (lstripFF inp) with
      | .ok _ => ⟨(packet :: frames).reverse, .ok (lstripFF inp), advance seq⟩
      | .error _ => attempt_loop checkP packet exhaustErr seq rc chunks' (packet :: frames)

/-- Source `PSD8.py`, `_send(cmd, address)` run with `self.sequence = seq`
against a transport delivering `chunks`: `retry_count = 10`, frame built
once with `repeat = 0`. -/
def send_v1 (cmd : List Nat) (address seq : Nat) (chunks : List (List Nat)) :
    SendOutcome :=
  let packet := build_packet_v1 cmd address seq 0
  attempt_loop check_packet_v1 packet (.retryLimit packet) seq 10 chunks []

/-- Source `PSD8v2.py`, `_send(cmd, address)` — identical loop, v2 frame and
`_check_packet`; exhausting the budget raises the `TypeError` from the
`str + bytes` message concatenation. -/
def send_v2 (cmd : List Nat) (address seq : Nat) (chunks : List (List Nat)) :
    SendOutcome :=
  let packet := build_packet_v2 cmd address seq
  attempt_loop check_packet_v2 packet .typeErrorStrBytesConcat seq 10 chunks []

/-- Command `b'Q'`, the status-query command used by `_ready_wait`. -/
def qCmd : List Nat := [0x51]

/-- What `_ready_wait` did: how many `_send` transactions it performed
and the list of `sleep` durations (in milliseconds) it executed between
consecutive polls — the source sleeps a fixed `0.1` seconds, i.e. 100 ms,
after each not-ready poll. -/
structure ReadyStats where
  transactions : Nat
  sleepsMs : List Nat
deriving DecidableEq

/-- Source `PSD8.py`, `_ready_wait`:
`while not self._check_packet(self._send(b'Q'))["ready"]: sleep(0.1)`.
The device is modelled as the list of per-transaction transport chunk
streams; once it is exhausted, further reads deliver nothing and the next
`_send` raises the retry-limit exception (the `[]` case below states that
outcome directly; `ready_wait_v1_nil_eq` proves it equal to running
`send_v1` on the empty transport).  A transmission error from `_send`, or
a `ValueError` from the outer `_check_packet` re-validation, propagates
immediately — there is no surrounding handler.  Returns the poll
statistics and the final sequence number. -/
def ready_wait_v1 (seq : Nat) :
    List (List (List Nat)) → Except PyErr (ReadyStats × Nat)
  | [] => .error (.retryLimit (build_packet_v1 qCmd 1 seq 0))
  | t :: ts =>
    let o := send_v1 qCmd 1 seq t
    match o.result with
    | .error e => .error e
    | .ok inp =>
      match check_packet_v1 inp with
      | .error e => .error (.valueError e)
      | .ok st =>
        if st.ready then .ok (⟨1, []⟩, o.seqAfter)
        else
          match ready_wait_v1 o.seqAfter ts with
          | .error e => .error e
          | .ok (stats, sf) => .ok (⟨stats.transactions + 1, 100 :: stats.sleepsMs⟩, sf)

/-- Source `PSD8v2.py`, `_ready_wait` — same loop over the v2 `_send` and
`_check_packet`; on an exhausted device the next `_send` raises the
`TypeError` (see `PyErr.typeErrorStrBytesConcat`). -/
def ready_wait_v2 (seq : Nat) :
    List (List (List Nat)) → Except PyErr (ReadyStats × Nat)
  | [] => .error .typeErrorStrBytesConcat
  | t :: ts =>
    let o := send_v2 qCmd 1 seq t
    match o.result with
    | .error e => .error e
    | .ok inp =>
      match check_packet_v2 inp with
      | .error e => .error (.valueError e)
      | .ok st =>
        if st.ready then .ok (⟨1, []⟩, o.seqAfter)
        else
          match ready_wait_v2 o.seqAfter ts with
          | .error e => .error e
          | .ok (stats, sf) => .ok (⟨stats.transactions + 1, 100 :: stats.sleepsMs⟩, sf)

/-! ## The public command API

The command methods are identical in the two files.  Each is modelled as
the trace of engine-level actions it performs, in source order: a
`_ready_wait()` call, a `_send(cmd, address)` call (the command string as
its characters), or an uncaught `assert` / `ValueError` raise. -/

/-- One engine-level action performed by a public command method. -/
inductive Action
  | readyWait
  | send (cmd : List Char) (address : Nat)
  | raiseAssertionError
  | raiseValueError
deriving DecidableEq

/-- Python's one-character `startswith`: the first character equals `c`. -/
def startswith1 (c : Char) : List Char → Bool
  | [] => false
  | a :: _ => a == c

/-- Method `home`: `self._ready_wait(); self._send("YR", address)`. -/
def home_trace (address : Nat) : List Action :=
  [.readyWait, .send (['Y', 'R']) address]

/-- Method `abs_position`: `assert 0 <= position <= 3000; self._ready_wait();
self._send("A..R".format(position), address)`. -/
def abs_position_trace (position : Int) (address : Nat) : List Action :=
  if 0 ≤ position ∧ position ≤ 3000 then
    [.readyWait, .send (['A'] ++ Nat.toDigits 10 position.toNat ++ ['R']) address]
  else [.raiseAssertionError]

/-- Method `dispense`: same shape with command letter `D`. -/
def dispense_trace (steps : Int) (address : Nat) : List Action :=
  if 0 ≤ steps ∧ steps ≤ 3000 then
    [.readyWait, .send (['D'] ++ Nat.toDigits 10 steps.toNat ++ ['R']) address]
  else [.raiseAssertionError]

/-- Method `pickup`: same shape with command letter `P`. -/
def pickup_trace (steps : Int) (address : Nat) : List Action :=
  if 0 ≤ steps ∧ steps ≤ 3000 then
    [.readyWait, .send (['P'] ++ Nat.toDigits 10 steps.toNat ++ ['R']) address]
  else [.raiseAssertionError]

/-- Method `set_valve`: `self._ready_wait(); position = position.lower();
if position.startswith("i"): self._send("IR", address)
elif position.startswith("o"): self._send("OR", address)` —
an unrecognised position falls through both branches and the method
returns having sent nothing. -/
def set_valve_trace (position : List Char) (address : Nat) : List Action :=
  .readyWait ::
    (let p := position.map Char.toLower
     if startswith1 ('i') p then [.send (['I', 'R']) address]
     else if startswith1 ('o') p then [.send (['O', 'R']) address]
     else [])

/-- Method `set_speed` (with an explicit speed argument): raise `ValueError` if
`speed < 1 or speed > 40`, else ready-wait then send `"S..R"`. -/
def set_speed_trace (speed : Int) (address : Nat) : List Action :=
  if speed < 1 ∨ speed > 40 then [.raiseValueError]
  else [.readyWait, .send (['S'] ++ Nat.toDigits 10 speed.toNat ++ ['R']) address]

/-- Method `set_aux`: `self._send("J..R".format(int(aux_val) & 0x07))` — no
ready wait, and the `_send` call passes no address, so the default
address `1` is used whatever `address` argument was given. -/
def set_aux_trace (auxVal : Nat) (_address : Nat) : List Action :=
  [.send (['J'] ++ Nat.toDigits 10 (auxVal &&& 0x07) ++ ['R']) 1]

/-- Values the `sequence` field of a `PSD8` instance can take in any run:
it is set to 1 in `__init__`, and afterwards every mutation happens
inside a `_send` call (either version), no other code assigns it. -/
inductive ReachableSeq : Nat → Prop
  | init : ReachableSeq 1
  | step_v1 (cmd : List Nat) (address s : Nat) (chunks : List (List Nat)) :
      ReachableSeq s → ReachableSeq (send_v1 cmd address s chunks).seqAfter
  | step_v2 (cmd : List Nat) (address s : Nat) (chunks : List (List Nat)) :
      ReachableSeq s → ReachableSeq (send_v2 cmd address s chunks).seqAfter

/-! ## Helper lemmas -/

theorem advance_bounds {s : Nat} (h1 : 1 ≤ s) (h7 : s ≤ 7) :
    1 ≤ advance s ∧ advance s ≤ 7 := by
  unfold advance; split <;> omega

theorem attempt_loop_seqAfter_cases
    (checkP : List Nat → Except CheckErr Status) (packet : List Nat)
    (ex : PyErr) (seq : Nat) :
    ∀ (rc : Nat) (chunks frames : List (List Nat)),
      (attempt_loop checkP packet ex seq rc chunks frames).seqAfter = seq ∨
      (attempt_loop checkP packet ex seq rc chunks frames).seqAfter = advance seq := by
  intro rc
  induction rc with
  | zero => intro chunks frames; left; rfl
  | succ n ih =>
    intro chunks frames
    simp only [attempt_loop]
    cases hr : read_loop 10 [] chunks with
    | error e => left; rfl
    | ok p =>
      obtain ⟨inp, ch2⟩ := p
      cases hc : checkP (lstripFF inp) with
      | ok st => simp only [hc]; right; trivial
      | error e => simp only [hc]; exact ih ch2 (packet :: frames)

theorem attempt_loop_error_seqAfter
    (checkP : List Nat → Except CheckErr Status) (packet : List Nat)
    (ex : PyErr) (seq : Nat) :
    ∀ (rc : Nat) (chunks frames : List (List Nat)) (e : PyErr),
      (attempt_loop checkP packet ex seq rc chunks frames).result = .error e →
      (attempt_loop checkP packet ex seq rc chunks frames).seqAfter = seq := by
  intro rc
  induction rc with
  | zero => intro chunks frames e _; rfl
  | succ n ih =>
    intro chunks frames e
    simp only [attempt_loop]
    cases hr : read_loop 10 [] chunks with
    | error e' => intro _; rfl
    | ok p =>
      obtain ⟨inp, ch2⟩ := p
      cases hc : checkP (lstripFF inp) with
      | ok st => simp only [hc]; intro h; cases h
      | error e' => simp only [hc]; exact ih ch2 (packet :: frames) e

theorem attempt_loop_ok_seqAfter
    (checkP : List Nat → Except CheckErr Status) (packet : List Nat)
    (ex : PyErr) (seq : Nat) :
    ∀ (rc : Nat) (chunks frames : List (List Nat)) (v : List Nat),
      (attempt_loop checkP packet ex seq rc chunks frames).result = .ok v →
      (attempt_loop checkP packet ex seq rc chunks frames).seqAfter = advance seq := by
  intro rc
  induction rc with
  | zero => intro chunks frames v h; cases h
  | succ n ih =>
    intro chunks frames v
    simp only [attempt_loop]
    cases hr : read_loop 10 [] chunks with
    | error e' => intro h; cases h
    | ok p =>
      obtain ⟨inp, ch2⟩ := p
      cases hc : checkP (lstripFF inp) with
      | ok st => simp only [hc]; intro _; trivial
      | error e' => simp only [hc]; exact ih ch2 (packet :: frames) v

theorem attempt_loop_frames_mem
    (checkP : List Nat → Except CheckErr Status) (packet : List Nat)
    (ex : PyErr) (seq : Nat) :
    ∀ (rc : Nat) (chunks frames : List (List Nat)) (f : List Nat),
      f ∈ (attempt_loop checkP packet ex seq rc chunks frames).frames →
      f = packet ∨ f ∈ frames := by
  intro rc
  induction rc with
  | zero =>
    intro chunks frames f h
    simp only [attempt_loop, List.mem_reverse] at h
    exact Or.inr h
  | succ n ih =>
    intro chunks frames f
    simp only [attempt_loop]
    cases hr : read_loop 10 [] chunks with
    | error e' =>
      intro h
      simp only [List.mem_reverse, List.mem_cons] at h
      tauto
    | ok p =>
      obtain ⟨inp, ch2⟩ := p
      cases hc : checkP (lstripFF inp) with
      | ok st =>
        simp only [hc]
        intro h
        simp only [List.mem_reverse, List.mem_cons] at h
        tauto
      | error e' =>
        simp only [hc]
        intro h
        rcases ih ch2 (packet :: frames) f h with h' | h'
        · exact Or.inl h'
        · simp only [List.mem_cons] at h'
          tauto

theorem foldl_xor_lt_256 (l : List Nat) :
    ∀ a, a < 256 → (∀ b ∈ l, b < 256) → l.foldl (fun x y => x ^^^ y) a < 256 := by
  induction l with
  | nil => intro a ha _; simpa using ha
  | cons b t ih =>
    intro a ha hb
    simp only [List.foldl_cons]
    refine ih (a ^^^ b) ?_ (fun c hc => hb c (List.mem_cons_of_mem _ hc))
    have h1 : a < 2 ^ 8 := ha
    have h2 : b < 2 ^ 8 := hb b (List.mem_cons_self b t)
    exact Nat.xor_lt_two_pow h1 h2

theorem and_255_of_lt {x : Nat} (h : x < 256) : x &&& 0xFF = x := by
  have h8 : x < 2 ^ 8 := h
  calc x &&& 0xFF = x &&& (2 ^ 8 - 1) := by norm_num
    _ = x := Nat.and_pow_two_sub_one_of_lt_two_pow h8

theorem foldl_masked_eq (l : List Nat) :
    ∀ a, List.foldl (fun x y => (x ^^^ y) &&& 0xFF) (a &&& 0xFF) l =
      (List.foldl (fun x y => x ^^^ y) a l) &&& 0xFF := by
  induction l with
  | nil => intro a; simp
  | cons b t ih =>
    intro a
    simp only [List.foldl_cons]
    have key : ((a &&& 0xFF) ^^^ b) &&& 0xFF = (a ^^^ b) &&& 0xFF := by
      rw [Nat.and_xor_distrib_right, Nat.and_xor_distrib_right, Nat.and_assoc, Nat.and_self]
    rw [key]
    exact ih (a ^^^ b)

theorem checksum_v2_eq_spec (s : List Nat) : checksum_v2 s = xorFoldMasked s := by
  have h := foldl_masked_eq s 0
  simpa [checksum_v2, xorFoldMasked] using h

theorem checksum_v1_eq_spec (s : List Nat) (h : ∀ b ∈ s, b < 256) :
    checksum_v1 s = xorFoldMasked s := by
  unfold checksum_v1 xorFoldMasked
  exact (and_255_of_lt (foldl_xor_lt_256 s 0 (by norm_num) h)).symm

theorem pyDigits_single {n : Nat} (h : n < 10) : pyDigits n = [0x30 + n] := by
  interval_cases n <;> decide

theorem send_v1_seqAfter_cases (cmd : List Nat) (address s : Nat)
    (chunks : List (List Nat)) :
    (send_v1 cmd address s chunks).seqAfter = s ∨
    (send_v1 cmd address s chunks).seqAfter = advance s :=
  attempt_loop_seqAfter_cases _ _ _ _ 10 chunks []

theorem send_v2_seqAfter_cases (cmd : List Nat) (address s : Nat)
    (chunks : List (List Nat)) :
    (send_v2 cmd address s chunks).seqAfter = s ∨
    (send_v2 cmd address s chunks).seqAfter = advance s :=
  attempt_loop_seqAfter_cases _ _ _ _ 10 chunks []

theorem checksum_gate_v1 (p : List Nat) (h1 : p.take 2 = [0x02, 0x30])
    (h2 : p.getD (p.length - 2) 0 = 0x03) :
    check_packet_v1 p = .error .checksumFailed ↔
      checksum_v1 p.dropLast ≠ p.getLastD 0 := by
  simp only [check_packet_v1]
  split_ifs with g1 g2 g3 g4
  · exact absurd h1 g1
  · exact absurd h2 g2
  · exact iff_of_true rfl g3
  · exact iff_of_false (by simp) g3
  · exact iff_of_false (by simp) g3

theorem checksum_gate_v2 (p : List Nat) (h1 : p.take 2 = [0x02, 0x30])
    (h2 : p.getD (p.length - 2) 0 = 0x03) :
    check_packet_v2 p = .error .checksumFailed ↔
      checksum_v2 p.dropLast ≠ p.getLastD 0 := by
  simp only [check_packet_v2]
  split_ifs with g1 g2 g3 g4
  · exact absurd h1 g1
  · exact absurd h2 g2
  · exact iff_of_true rfl g3
  · exact iff_of_false (by simp) g3
  · exact iff_of_false (by simp) g3

theorem ready_wait_v1_step_notready (s : Nat) (ts : List (List (List Nat))) :
    ready_wait_v1 s ([[0x02, 0x30, 0x40, 0x03, 0x71]] :: ts) =
      match ready_wait_v1 (advance s) ts with
      | .error e => .error e
      | .ok (stats, sf) =>
          .ok (⟨stats.transactions + 1, 100 :: stats.sleepsMs⟩, sf) := rfl

theorem ready_wait_v1_step_ready (s : Nat) (ts : List (List (List Nat))) :
    ready_wait_v1 s ([[0x02, 0x30, 0x60, 0x03, 0x51]] :: ts) =
      .ok (⟨1, []⟩, advance s) := rfl

theorem ready_wait_v2_step_notready (s : Nat) (ts : List (List (List Nat))) :
    ready_wait_v2 s ([[0x02, 0x30, 0x40, 0x03, 0x71]] :: ts) =
      match ready_wait_v2 (advance s) ts with
      | .error e => .error e
      | .ok (stats, sf) =>
          .ok (⟨stats.transactions + 1, 100 :: stats.sleepsMs⟩, sf) := rfl

theorem ready_wait_v2_step_ready (s : Nat) (ts : List (List (List Nat))) :
    ready_wait_v2 s ([[0x02, 0x30, 0x60, 0x03, 0x51]] :: ts) =
      .ok (⟨1, []⟩, advance s) := rfl

/-- The `[]` case of `ready_wait_v1` is exactly what `_send` does on an
exhausted transport: all ten attempts read nothing and the retry-limit
exception is raised. -/
theorem ready_wait_v1_nil_eq (s : Nat) :
    (send_v1 qCmd 1 s []).result =
      .error (.retryLimit (build_packet_v1 qCmd 1 s 0)) := rfl

/-- The `[]` case of `ready_wait_v2`, likewise. -/
theorem ready_wait_v2_nil_eq (s : Nat) :
    (send_v2 qCmd 1 s []).result = .error .typeErrorStrBytesConcat := rfl

/-! ## Claim theorems -/

/-- C1: in every run of the engine from the initial state `sequence = 1`,
the sequence stays within 1–7; `_send` (both files) leaves it unchanged
whenever it raises and sets it to `advance` of the old value exactly when
it returns a validated packet; and `advance` sends `s` to `s + 1` for
`s < 7` and to `1` for `s ≥ 7`, so successive successful transactions
cycle 1, 2, …, 7, 1. -/
theorem C1_sequence_invariant :
    (∀ s, ReachableSeq s → 1 ≤ s ∧ s ≤ 7) ∧
    (∀ cmd address s chunks e,
      (send_v1 cmd address s chunks).result = .error e →
      (send_v1 cmd address s chunks).seqAfter = s) ∧
    (∀ cmd address s chunks v,
      (send_v1 cmd address s chunks).result = .ok v →
      (send_v1 cmd address s chunks).seqAfter = advance s) ∧
    (∀ cmd address s chunks e,
      (send_v2 cmd address s chunks).result = .error e →
      (send_v2 cmd address s chunks).seqAfter = s) ∧
    (∀ cmd address s chunks v,
      (send_v2 cmd address s chunks).result = .ok v →
      (send_v2 cmd address s chunks).seqAfter = advance s) ∧
    (∀ s, s < 7 → advance s = s + 1) ∧
    (∀ s, 7 ≤ s → advance s = 1) := by
  refine ⟨?_, ?_, ?_, ?_, ?_, ?_, ?_⟩
  · intro s h
    induction h with
    | init => omega
    | step_v1 cmd address s' chunks hs ih =>
      rcases send_v1_seqAfter_cases cmd address s' chunks with h' | h' <;> rw [h']
      · exact ih
      · exact advance_bounds ih.1 ih.2
    | step_v2 cmd address s' chunks hs ih =>
      rcases send_v2_seqAfter_cases cmd address s' chunks with h' | h' <;> rw [h']
      · exact ih
      · exact advance_bounds ih.1 ih.2
  · intro cmd address s chunks e h
    exact attempt_loop_error_seqAfter _ _ _ _ 10 chunks [] e h
  · intro cmd address s chunks v h
    exact attempt_loop_ok_seqAfter _ _ _ _ 10 chunks [] v h
  · intro cmd address s chunks e h
    exact attempt_loop_error_seqAfter _ _ _ _ 10 chunks [] e h
  · intro cmd address s chunks v h
    exact attempt_loop_ok_seqAfter _ _ _ _ 10 chunks [] v h
  · intro s h; unfold advance; rw [if_neg (by omega)]
  · intro s h; unfold advance; rw [if_pos (by omega)]

/-- Witness for C1 at concrete inputs: the initial sequence is in
bounds, a fully failed `_send` leaves sequence 1 unchanged, a successful
`_send` at sequence 3 advances to `advance 3`, and `advance` computes
`3 ↦ 4` and `7 ↦ 1`. -/
theorem C1_sequence_invariant_witness :
    (1 ≤ 1 ∧ 1 ≤ 7) ∧
    (send_v1 qCmd 1 1 []).seqAfter = 1 ∧
    (send_v1 qCmd 1 3 [[0x02, 0x30, 0x40, 0x03, 0x71]]).seqAfter = advance 3 ∧
    advance 3 = 3 + 1 ∧ advance 7 = 1 :=
  ⟨C1_sequence_invariant.1 1 ReachableSeq.init,
   C1_sequence_invariant.2.1 qCmd 1 1 []
     (.retryLimit (build_packet_v1 qCmd 1 1 0)) rfl,
   C1_sequence_invariant.2.2.1 qCmd 1 3 [[0x02, 0x30, 0x40, 0x03, 0x71]]
     [0x02, 0x30, 0x40, 0x03, 0x71] rfl,
   C1_sequence_invariant.2.2.2.2.2.1 3 (by norm_num),
   C1_sequence_invariant.2.2.2.2.2.2 7 (by norm_num)⟩

/-- C2: the first attempt's frame carries sequence byte
`ord('0') + sequence` with the repeat bit `0x08` clear, as claimed — but
the retransmission half of the claim fails on the code: every one of the
up-to-10 attempts writes the very same frame, because `PSD8.py` builds
the packet once before the loop (the `repeat` local set in the `except`
branch is never read) and `PSD8v2.py` dropped the repeat term entirely.
On a transport that makes all 10 attempts fail, the frames written are
10 identical copies with the repeat bit clear. -/
theorem C2_retry_frames_repeat_bit_clear :
    (∀ cmd address s, (send_v1 cmd address s []).frames =
      List.replicate 10 (build_packet_v1 cmd address s 0)) ∧
    (∀ cmd address s, (send_v2 cmd address s []).frames =
      List.replicate 10 (build_packet_v2 cmd address s)) ∧
    (∀ cmd address s rep, (build_packet_v1 cmd address s rep).getD 2 0 =
      (s + 0x30) ||| (0b00001000 * rep)) ∧
    (∀ s, s ≤ 7 → ((s + 0x30) ||| (0b00001000 * 0)) &&& 0x08 = 0) ∧
    (send_v1 qCmd 1 1 []).frames =
      List.replicate 10 [0x02, 0x31, 0x31, 0x51, 0x03, 0x50] ∧
    (send_v2 qCmd 1 1 []).frames =
      List.replicate 10 [0x02, 0x31, 0x31, 0x51, 0x03, 0x50] := by
  refine ⟨fun cmd address s => rfl, fun cmd address s => rfl,
    fun cmd address s rep => rfl, ?_, rfl, rfl⟩
  intro s hs
  interval_cases s <;> decide

/-- Witness for C2's hypothesis-bearing conjunct at sequence 1. -/
theorem C2_retry_frames_repeat_bit_clear_witness :
    ((1 + 0x30) ||| (0b00001000 * 0)) &&& 0x08 = 0 :=
  C2_retry_frames_repeat_bit_clear.2.2.2.1 1 (by norm_num)

/-- C3: when all 10 attempts fail, `PSD8.py` raises the retry-limit
exception carrying the attempted outbound frame and the sequence is
unchanged, exactly as claimed; `PSD8v2.py` instead raises a `TypeError`
while building the exception message (`str` literal + `bytes` frame),
which carries no frame — the sequence is still unchanged. -/
theorem C3_retry_limit_exhaustion :
    (send_v1 qCmd 1 1 []).result =
      .error (.retryLimit [0x02, 0x31, 0x31, 0x51, 0x03, 0x50]) ∧
    [0x02, 0x31, 0x31, 0x51, 0x03, 0x50] = build_packet_v1 qCmd 1 1 0 ∧
    (send_v1 qCmd 1 1 []).seqAfter = 1 ∧
    (send_v2 qCmd 1 1 []).result = .error .typeErrorStrBytesConcat ∧
    (send_v2 qCmd 1 1 []).seqAfter = 1 :=
  ⟨rfl, rfl, rfl, rfl, rfl⟩

/-- C4: refuted — an exception other than the retry-limit error can
escape `_send` in both files: when the transport's first read delivers a
single byte, evaluating `in_packet[-2]` in the read-loop condition
raises an `IndexError` outside the `try` block, which propagates to the
caller. -/
theorem C4_index_error_escapes :
    (send_v1 qCmd 1 1 [[0x05]]).result = .error .indexError ∧
    (send_v2 qCmd 1 1 [[0x05]]).result = .error .indexError :=
  ⟨rfl, rfl⟩

/-- C5: both `_checksum` implementations equal the spec's masked XOR
fold (the unmasked v1 fold already stays below 256 on byte input); both
frame builders append exactly that checksum of the preceding bytes as
the trailing byte; and in both `_check_packet`s the checksum gate holds
exactly when that same function of the frame minus its last byte
differs from the last byte. -/
theorem C5_checksum_xor_fold :
    (∀ s, checksum_v2 s = xorFoldMasked s) ∧
    (∀ s, (∀ b ∈ s, b < 256) → checksum_v1 s = xorFoldMasked s) ∧
    (∀ cmd address sq rep, (build_packet_v1 cmd address sq rep).getLastD 0 =
      checksum_v1 (build_packet_v1 cmd address sq rep).dropLast) ∧
    (∀ cmd address sq, (build_packet_v2 cmd address sq).getLastD 0 =
      checksum_v2 (build_packet_v2 cmd address sq).dropLast) ∧
    (∀ p, p.take 2 = [0x02, 0x30] → p.getD (p.length - 2) 0 = 0x03 →
      (check_packet_v1 p = .error .checksumFailed ↔
        checksum_v1 p.dropLast ≠ p.getLastD 0)) ∧
    (∀ p, p.take 2 = [0x02, 0x30] → p.getD (p.length - 2) 0 = 0x03 →
      (check_packet_v2 p = .error .checksumFailed ↔
        checksum_v2 p.dropLast ≠ p.getLastD 0)) := by
  refine ⟨checksum_v2_eq_spec, checksum_v1_eq_spec, ?_, ?_,
    checksum_gate_v1, checksum_gate_v2⟩
  · intro cmd address sq rep
    rw [build_packet_v1, List.getLastD_concat, List.dropLast_concat]
  · intro cmd address sq
    rw [build_packet_v2, List.getLastD_concat, List.dropLast_concat]

/-- Witness for C5's hypothesis-bearing conjuncts at concrete inputs. -/
theorem C5_checksum_xor_fold_witness :
    checksum_v1 [0x02, 0x30, 0x40, 0x03] = xorFoldMasked [0x02, 0x30, 0x40, 0x03] ∧
    (check_packet_v1 [0x02, 0x30, 0x40, 0x03, 0x71] = .error .checksumFailed ↔
      checksum_v1 ([0x02, 0x30, 0x40, 0x03, 0x71] : List Nat).dropLast ≠
        ([0x02, 0x30, 0x40, 0x03, 0x71] : List Nat).getLastD 0) ∧
    (check_packet_v2 [0x02, 0x30, 0x40, 0x03, 0x71] = .error .checksumFailed ↔
      checksum_v2 ([0x02, 0x30, 0x40, 0x03, 0x71] : List Nat).dropLast ≠
        ([0x02, 0x30, 0x40, 0x03, 0x71] : List Nat).getLastD 0) :=
  ⟨C5_checksum_xor_fold.2.1 [0x02, 0x30, 0x40, 0x03] (by decide),
   C5_checksum_xor_fold.2.2.2.2.1 [0x02, 0x30, 0x40, 0x03, 0x71]
     (by decide) (by decide),
   C5_checksum_xor_fold.2.2.2.2.2 [0x02, 0x30, 0x40, 0x03, 0x71]
     (by decide) (by decide)⟩

/-- C6 counterexample: a frame whose status byte `0x00` violates the
fixed-bit pattern AND whose trailing checksum byte is wrong is rejected
with the checksum error, not the invalid-status error — the checksum
check runs first, so the claim's "regardless of whether the checksum is
valid" fails. -/
theorem C6_status_after_checksum_counterexample :
    check_packet_v1 [0x02, 0x30, 0x00, 0x03, 0xFF] = .error .checksumFailed ∧
    check_packet_v2 [0x02, 0x30, 0x00, 0x03, 0xFF] = .error .checksumFailed ∧
    (0x00 : Nat) &&& 0b11010000 ≠ 0b01000000 :=
  ⟨rfl, rfl, by decide⟩

/-- C6 (amended): a frame whose status byte violates the fixed-bit
pattern is always rejected; the error is the invalid-status error
whenever the frame also passes the completeness and checksum checks,
while a frame failing the checksum check is rejected earlier with the
checksum error. -/
theorem C6_invalid_status_rejected (p : List Nat)
    (hb : p.getD 2 0 &&& 0b11010000 ≠ 0b01000000) :
    (∃ e, check_packet_v1 p = .error e) ∧
    (∃ e, check_packet_v2 p = .error e) ∧
    (p.take 2 = [0x02, 0x30] → p.getD (p.length - 2) 0 = 0x03 →
      checksum_v1 p.dropLast = p.getLastD 0 →
      check_packet_v1 p = .error .statusInvalid) ∧
    (p.take 2 = [0x02, 0x30] → p.getD (p.length - 2) 0 = 0x03 →
      checksum_v2 p.dropLast = p.getLastD 0 →
      check_packet_v2 p = .error .statusInvalid) := by
  refine ⟨?_, ?_, ?_, ?_⟩
  · simp only [check_packet_v1]
    split_ifs with g1 g2 g3
    · exact ⟨_, rfl⟩
    · exact ⟨_, rfl⟩
    · exact ⟨_, rfl⟩
    · exact ⟨_, rfl⟩
  · simp only [check_packet_v2]
    split_ifs with g1 g2 g3
    · exact ⟨_, rfl⟩
    · exact ⟨_, rfl⟩
    · exact ⟨_, rfl⟩
    · exact ⟨_, rfl⟩
  · intro h1 h2 h3
    simp only [check_packet_v1]
    split_ifs with g1 g2 g3
    · exact absurd h1 g1
    · exact absurd h2 g2
    · exact absurd h3 g3
    · rfl
  · intro h1 h2 h3
    simp only [check_packet_v2]
    split_ifs with g1 g2 g3
    · exact absurd h1 g1
    · exact absurd h2 g2
    · exact absurd h3 g3
    · rfl

/-- Witness for C6's amended theorem: a structurally valid frame with a
correct checksum and status byte `0x00` is rejected with the
invalid-status error by both versions. -/
theorem C6_invalid_status_rejected_witness :
    check_packet_v1 [0x02, 0x30, 0x00, 0x03, 0x31] = .error .statusInvalid ∧
    check_packet_v2 [0x02, 0x30, 0x00, 0x03, 0x31] = .error .statusInvalid :=
  ⟨(C6_invalid_status_rejected [0x02, 0x30, 0x00, 0x03, 0x31]
      (by decide)).2.2.1 (by decide) (by decide) (by decide),
   (C6_invalid_status_rejected [0x02, 0x30, 0x00, 0x03, 0x31]
      (by decide)).2.2.2 (by decide) (by decide) (by decide)⟩

/-- C7: encoding command `"A1500R"` at address 1, sequence 1, repeat
false produces exactly the frame bytes
`02 31 31 41 31 35 30 30 52 03` followed by the checksum byte `0x16`,
which equals the masked XOR fold of the preceding bytes (both source
files produce the identical frame). -/
theorem C7_encode_A1500R :
    build_packet_v1 [0x41, 0x31, 0x35, 0x30, 0x30, 0x52] 1 1 0 =
      [0x02, 0x31, 0x31, 0x41, 0x31, 0x35, 0x30, 0x30, 0x52, 0x03, 0x16] ∧
    build_packet_v2 [0x41, 0x31, 0x35, 0x30, 0x30, 0x52] 1 1 =
      [0x02, 0x31, 0x31, 0x41, 0x31, 0x35, 0x30, 0x30, 0x52, 0x03, 0x16] ∧
    (0x16 : Nat) =
      xorFoldMasked [0x02, 0x31, 0x31, 0x41, 0x31, 0x35, 0x30, 0x30, 0x52, 0x03] :=
  ⟨by decide, by decide, by decide⟩

/-- C8: `_ready_wait` returns exactly when a polled transaction decodes
`ready = true`: against a device answering not-ready
(status byte `0x40`) to the first N status polls and ready (`0x60`) to
the next, it performs exactly N + 1 transactions with N fixed 100 ms
(`sleep(0.1)`) pauses between consecutive polls, in both files; and a
transmission error raised by the underlying `_send` propagates to the
caller unchanged — there is no extra retry layer. -/
theorem C8_ready_wait_polls :
    (∀ (N s : Nat), ∃ sf,
      ready_wait_v1 s (List.replicate N [[0x02, 0x30, 0x40, 0x03, 0x71]] ++
          [[[0x02, 0x30, 0x60, 0x03, 0x51]]]) =
        .ok (⟨N + 1, List.replicate N 100⟩, sf)) ∧
    (∀ (N s : Nat), ∃ sf,
      ready_wait_v2 s (List.replicate N [[0x02, 0x30, 0x40, 0x03, 0x71]] ++
          [[[0x02, 0x30, 0x60, 0x03, 0x51]]]) =
        .ok (⟨N + 1, List.replicate N 100⟩, sf)) ∧
    (∀ s t ts e, (send_v1 qCmd 1 s t).result = .error e →
      ready_wait_v1 s (t :: ts) = .error e) ∧
    (∀ s t ts e, (send_v2 qCmd 1 s t).result = .error e →
      ready_wait_v2 s (t :: ts) = .error e) := by
  refine ⟨?_, ?_, ?_, ?_⟩
  · intro N
    induction N with
    | zero => intro s; exact ⟨advance s, ready_wait_v1_step_ready s []⟩
    | succ n ih =>
      intro s
      obtain ⟨sf, h⟩ := ih (advance s)
      refine ⟨sf, ?_⟩
      rw [List.replicate_succ, List.cons_append, ready_wait_v1_step_notready, h]
      rfl
  · intro N
    induction N with
    | zero => intro s; exact ⟨advance s, ready_wait_v2_step_ready s []⟩
    | succ n ih =>
      intro s
      obtain ⟨sf, h⟩ := ih (advance s)
      refine ⟨sf, ?_⟩
      rw [List.replicate_succ, List.cons_append, ready_wait_v2_step_notready, h]
      rfl
  · intro s t ts e h
    simp only [ready_wait_v1]
    rw [h]
  · intro s t ts e h
    simp only [ready_wait_v2]
    rw [h]

/-- Witness for C8's hypothesis-bearing conjuncts: a transport failure
inside the first poll surfaces directly from `_ready_wait`. -/
theorem C8_ready_wait_polls_witness :
    ready_wait_v1 1 [[]] =
      .error (.retryLimit [0x02, 0x31, 0x31, 0x51, 0x03, 0x50]) ∧
    ready_wait_v2 1 [[]] = .error .typeErrorStrBytesConcat :=
  ⟨C8_ready_wait_polls.2.2.1 1 [] []
      (.retryLimit [0x02, 0x31, 0x31, 0x51, 0x03, 0x50]) rfl,
   C8_ready_wait_polls.2.2.2 1 [] [] .typeErrorStrBytesConcat rfl⟩

/-- C9: `set_valve` called with a position string whose lower-cased form
starts with neither "i" nor "o" performs the ready wait and then returns
normally, sending no command and raising nothing — a silent no-op. -/
theorem C9_set_valve_unrecognized_noop (position : List Char) (address : Nat)
    (hi : startswith1 ('i') (position.map Char.toLower) = false)
    (ho : startswith1 ('o') (position.map Char.toLower) = false) :
    set_valve_trace position address = [.readyWait] := by
  simp [set_valve_trace, hi, ho]

/-- Witness for C9 at the concrete position string "x". -/
theorem C9_set_valve_unrecognized_noop_witness :
    set_valve_trace (['x']) 1 = [.readyWait] :=
  C9_set_valve_unrecognized_noop (['x']) 1 (by decide) (by decide)

/-- C10: `home`, `abs_position`, `dispense`, `pickup`, `set_valve` and
`set_speed` each perform the ready wait before their `_send` (for
in-range arguments), whereas `set_aux` sends immediately with no ready
wait anywhere in its trace. -/
theorem C10_ready_wait_before_send :
    (∀ a, home_trace a = [.readyWait, .send (['Y', 'R']) a]) ∧
    (∀ p a, 0 ≤ p → p ≤ 3000 → abs_position_trace p a =
      [.readyWait, .send (['A'] ++ Nat.toDigits 10 p.toNat ++ ['R']) a]) ∧
    (∀ st a, 0 ≤ st → st ≤ 3000 → dispense_trace st a =
      [.readyWait, .send (['D'] ++ Nat.toDigits 10 st.toNat ++ ['R']) a]) ∧
    (∀ st a, 0 ≤ st → st ≤ 3000 → pickup_trace st a =
      [.readyWait, .send (['P'] ++ Nat.toDigits 10 st.toNat ++ ['R']) a]) ∧
    (∀ pos a, ∃ t, set_valve_trace pos a = .readyWait :: t ∧
      Action.readyWait ∉ t) ∧
    (∀ sp a, 1 ≤ sp → sp ≤ 40 → set_speed_trace sp a =
      [.readyWait, .send (['S'] ++ Nat.toDigits 10 sp.toNat ++ ['R']) a]) ∧
    (∀ v a, set_aux_trace v a =
      [.send (['J'] ++ Nat.toDigits 10 (v &&& 0x07) ++ ['R']) 1] ∧
      Action.readyWait ∉ set_aux_trace v a) := by
  refine ⟨fun a => rfl, ?_, ?_, ?_, ?_, ?_, ?_⟩
  · intro p a h0 h3; unfold abs_position_trace; rw [if_pos ⟨h0, h3⟩]
  · intro st a h0 h3; unfold dispense_trace; rw [if_pos ⟨h0, h3⟩]
  · intro st a h0 h3; unfold pickup_trace; rw [if_pos ⟨h0, h3⟩]
  · intro pos a
    by_cases hi : startswith1 ('i') (pos.map Char.toLower)
    · exact ⟨[.send (['I', 'R']) a], by simp [set_valve_trace, hi], by simp⟩
    · by_cases ho : startswith1 ('o') (pos.map Char.toLower)
      · exact ⟨[.send (['O', 'R']) a], by simp [set_valve_trace, hi, ho], by simp⟩
      · exact ⟨[], by simp [set_valve_trace, hi, ho], by simp⟩
  · intro sp a h1 h40; unfold set_speed_trace; rw [if_neg (by omega)]
  · intro v a; exact ⟨rfl, by simp [set_aux_trace]⟩

/-- Witness for C10's hypothesis-bearing conjuncts at in-range
arguments. -/
theorem C10_ready_wait_before_send_witness :
    abs_position_trace 1000 1 =
      [.readyWait, .send (['A'] ++ Nat.toDigits 10 (1000 : Int).toNat ++ ['R']) 1] ∧
    dispense_trace 100 1 =
      [.readyWait, .send (['D'] ++ Nat.toDigits 10 (100 : Int).toNat ++ ['R']) 1] ∧
    pickup_trace 100 1 =
      [.readyWait, .send (['P'] ++ Nat.toDigits 10 (100 : Int).toNat ++ ['R']) 1] ∧
    set_speed_trace 7 1 =
      [.readyWait, .send (['S'] ++ Nat.toDigits 10 (7 : Int).toNat ++ ['R']) 1] :=
  ⟨C10_ready_wait_before_send.2.1 1000 1 (by norm_num) (by norm_num),
   C10_ready_wait_before_send.2.2.1 100 1 (by norm_num) (by norm_num),
   C10_ready_wait_before_send.2.2.2.1 100 1 (by norm_num) (by norm_num),
   C10_ready_wait_before_send.2.2.2.2.2.1 7 1 (by norm_num) (by norm_num)⟩

end PSD8
